import Mathlib

/-!
# pod-request-node: a shallow embedding of `lib/main.js`

The development embeds the class `PodRequest` of `lib/main.js` together with the
constants of `lib/config.js`.

* JavaScript values are the JSON values (what the HTTP client hands over as a
  parsed response body, and what a caller passes as headers and data) together
  with `undefined`.  There are no function values, so an own property is never
  callable.
* Numbers are integers (status codes and error codes); fractional numbers and
  `NaN` are outside the model.
* A synchronous `throw` and a promise rejection are both modelled by
  `Except Thrown`.
* The HTTP client `axios` and the encoder `qs.stringify` are external packages:
  they are parameters of the functions that use them.
-/

namespace PodRequest

/-! ## Values -/

/-- JavaScript values: `undefined`, `null`, booleans, (integer) numbers, strings,
arrays and plain objects.  An object is the list of its own properties; when a
key occurs twice the first binding is the property. -/
inductive JSVal where
  | undefined : JSVal
  | null : JSVal
  | bool (b : Bool) : JSVal
  | num (n : Int) : JSVal
  | str (s : String) : JSVal
  | arr (items : List JSVal) : JSVal
  | obj (fields : List (String × JSVal)) : JSVal

/-- The error object built by `new util.PodError(code, message, originalResult)`:
the three properties the constructor of the external package `pod-utilities`
fills in.  The constructor call itself is `newPodError`. -/
structure PodError where
  code : JSVal
  message : JSVal
  raw : JSVal

/-- The rejection value of the HTTP client: an `Error` instance built by axios.
Only the two own properties probed by the failure handler are kept; `none` says
that the error object has no own property of that name.  Such an object inherits
`hasOwnProperty` from `Object.prototype`. -/
structure TransportError where
  response : Option JSVal
  code : Option JSVal

/-- What can be thrown while a request is handled. -/
inductive Thrown where
  | podError (e : PodError) : Thrown
  | typeError : Thrown
  | transportError (e : TransportError) : Thrown

/-- The response object `axios` resolves with; only `data` is read. -/
structure AxiosResponse where
  data : JSVal

/-- The request description handed to `axios`; `none` is an unset property. -/
structure Options where
  url : String
  method : JSVal
  headers : Option JSVal := none
  params : Option JSVal := none
  data : Option JSVal := none

/-! ## `lib/config.js` -/

/-- The constant `errors.connection.code`. -/
def errors.connection.code : JSVal := .num 889

/-- The constant `errors.connection.message`. -/
def errors.connection.message : JSVal := .str "Connection Error Occurred."

/-- The constant `errors.unexpected.code`. -/
def errors.unexpected.code : JSVal := .num 888

/-- The constant `errors.unexpected.message`. -/
def errors.unexpected.message : JSVal := .str "Unexpected Error Occurred."

/-! ## JavaScript primitives used by `lib/main.js` -/

/-- The operator `typeof v`. -/
def typeOf : JSVal → String
  | .undefined => "undefined"
  | .null => "object"
  | .bool _ => "boolean"
  | .num _ => "number"
  | .str _ => "string"
  | .arr _ => "object"
  | .obj _ => "object"

/-- The conversion `ToBoolean`: what `if (v)`, `!v`, `&&` and `||` test. -/
def truthy : JSVal → Bool
  | .undefined => false
  | .null => false
  | .bool b => b
  | .num n => n != 0
  | .str s => s != ""
  | .arr _ => true
  | .obj _ => true

/-- The operator `a || b` on values whose evaluation has no effect. -/
def jsOr (a b : JSVal) : JSVal :=
  if truthy a then a else b

/-- The constructor call `new util.PodError(code, message, originalResult)` of the
external package `pod-utilities`: `code` and `message` are stored as they are
given, the third property is `originalResult || null`.  Every call in
`lib/main.js` that is reached from `request` passes an object, which is stored
as it is, or `null`. -/
def newPodError (code message originalResult : JSVal) : PodError :=
  { code := code, message := message, raw := jsOr originalResult .null }

/-- Own-property lookup in the property list of an object. -/
def ownField (fields : List (String × JSVal)) (key : String) : Option JSVal :=
  fields.lookup key

/-- The number written by a list of decimal digits. -/
def digitsValue (digits : List Char) : Nat :=
  digits.foldl (fun acc c => 10 * acc + (c.toNat - '0'.toNat)) 0

/-- Whether `key` is an own property of an array or a string of length `n`:
`length`, or the canonical decimal form (no leading zero) of an index below `n`. -/
def indexKey (n : Nat) (key : String) : Bool :=
  key == "length" ||
    (!key.data.isEmpty && key.data.all Char.isDigit &&
      (key.data.head? != some '0' || key.data.length == 1) &&
      decide (digitsValue key.data < n))

/-- The builtin `Object.prototype.hasOwnProperty.call(v, key)` for a value `v`
other than `undefined` and `null`. -/
def hasOwn : JSVal → String → Bool
  | .obj fields, key => (ownField fields key).isSome
  | .arr items, key => indexKey items.length key
  | .str s, key => indexKey s.length key
  | _, _ => false

/-- The method call `v.hasOwnProperty(key)`.  The method is looked up on `v`:
on `undefined` and `null` the lookup throws a `TypeError`; on an object with an
own property named `hasOwnProperty` that property is found instead of the
builtin and, not being a function, the call throws a `TypeError`. -/
def callHasOwnProperty (v : JSVal) (key : String) : Except Thrown Bool :=
  match v with
  | .undefined => .error .typeError
  | .null => .error .typeError
  | .obj fields =>
    if (ownField fields "hasOwnProperty").isSome then .error .typeError
    else .ok (hasOwn (.obj fields) key)
  | w => .ok (hasOwn w key)

/-- The property read `v.key` / `v[key]` for the property names read by
`lib/main.js` (`hasError`, `ErrorCode`, `Message`, `errorCode`, `message`,
`Content-Type`, `status`, `data`, `statusText`).  None of them is defined on a
builtin prototype or on an array or string, so the read gives the own property of
an object and `undefined` otherwise; on `undefined` and `null` it throws. -/
def getProp (v : JSVal) (key : String) : Except Thrown JSVal :=
  match v with
  | .undefined => .error .typeError
  | .null => .error .typeError
  | .obj fields => .ok ((ownField fields key).getD .undefined)
  | _ => .ok .undefined

/-- The method `s.toLowerCase()`, on ASCII letters.  JavaScript lowers every
cased letter; the only letter outside ASCII whose lower case is an ASCII letter
is the Kelvin sign (to `k`), so comparing the result with `get` or with
`application/x-www-form-urlencoded` gives the same answer in both. -/
def toLowerCase (s : String) : String :=
  String.mk (s.data.map Char.toLower)

/-! ## `lib/main.js`: URL assembly -/

/-- The method `checkAndAppend(firstpart, secondPart)`.
`firstpart[firstpart.length - 1]` is the last character (`undefined` on the empty
string), `secondPart[0]` the first one, and `firstpart.substr(0, firstpart.length - 1)`
drops the last character. -/
def checkAndAppend (firstpart secondPart : String) : String :=
  if firstpart.data.getLast? ≠ some '/' ∧ secondPart.data.head? ≠ some '/' then
    firstpart ++ "/" ++ secondPart
  else if firstpart.data.getLast? = some '/' ∧ secondPart.data.head? = some '/' then
    String.mk firstpart.data.dropLast ++ secondPart
  else
    firstpart ++ secondPart

/-- The method `appendUrls(baseUrl, apiPath, urlTrail)`; `urlTrail` is an optional
string and `if (urlTrail)` holds for a non-empty one. -/
def appendUrls (baseUrl apiPath : String) (urlTrail : Option String) : String :=
  let finalUrl := checkAndAppend baseUrl apiPath
  match urlTrail with
  | some trail => if trail ≠ "" then checkAndAppend finalUrl trail else finalUrl
  | none => finalUrl

/-! ## `lib/main.js`: headers and body -/

/-- The method `addHeaders(options, headers)`; the result is the updated
`options`. -/
def addHeaders (options : Options) (headers : JSVal) : Options :=
  if typeOf headers = "object" then { options with headers := some headers }
  else options

/-- The method `isUrlencoded(headers)`. -/
def isUrlencoded (headers : JSVal) : Except Thrown Bool :=
  if typeOf headers = "object" then
    match callHasOwnProperty headers "Content-Type" with
    | .error e => .error e
    | .ok false => .ok false
    | .ok true =>
      match getProp headers "Content-Type" with
      | .error e => .error e
      | .ok (.str contentType) =>
        .ok (toLowerCase contentType == "application/x-www-form-urlencoded")
      | .ok _ => .ok false
  else .ok false

/-- The method `addBody(options, method, headers, data, isUrlEncoded)`; the
result is the updated `options`, or what `isUrlencoded` throws.  `stringify` is
`qs.stringify`. -/
def addBody (stringify : JSVal → String) (options : Options)
    (method headers data isUrlEncoded : JSVal) : Except Thrown Options :=
  match method with
  | .str m =>
    if typeOf data = "object" then
      if toLowerCase m = "get" then
        .ok { options with params := some data }
      else
        match isUrlencoded headers with
        | .error e => .error e
        | .ok true => .ok { options with data := some (.str (stringify data)) }
        | .ok false =>
          if truthy isUrlEncoded then
            .ok { options with data := some (.str (stringify data)) }
          else
            .ok { options with data := some data }
    else .ok options
  | _ => .ok options

/-! ## `lib/main.js`: response interpretation -/

/-- The method `isPodStandard(inpParam)`. -/
def isPodStandard (inpParam : JSVal) : Except Thrown Bool :=
  if typeOf inpParam = "object" then
    match callHasOwnProperty inpParam "hasError" with
    | .error e => .error e
    | .ok true => .ok true
    | .ok false => callHasOwnProperty inpParam "HasError"
  else .ok false

/-- The conditional read `obj.hasOwnProperty(key) ? obj[key] : fallback`. -/
def ownOrElse (obj : JSVal) (key : String) (fallback : JSVal) : Except Thrown JSVal :=
  match callHasOwnProperty obj key with
  | .error e => .error e
  | .ok true => getProp obj key
  | .ok false => .ok fallback

/-- The method `createErrorFromPodReponse(podStandardObj)`: `code` and `message`
are first assigned from the capitalised fields, then assigned again from the
lowercase fields. -/
def createErrorFromPodReponse (podStandardObj : JSVal) : Except Thrown PodError :=
  match ownOrElse podStandardObj "ErrorCode" errors.unexpected.code with
  | .error e => .error e
  | .ok _code =>
    match ownOrElse podStandardObj "Message" errors.unexpected.message with
    | .error e => .error e
    | .ok _message =>
      match ownOrElse podStandardObj "errorCode" errors.unexpected.code with
      | .error e => .error e
      | .ok code =>
        match ownOrElse podStandardObj "message" errors.unexpected.message with
        | .error e => .error e
        | .ok message => .ok (newPodError code message podStandardObj)

/-- The `.then` callback of `request`.  The first component is the value of the
variable `isPodStandard` when the callback ends, the second what the callback
returns (`ok`) or throws (`error`). -/
def thenHandler (response : AxiosResponse) : Bool × Except Thrown JSVal :=
  let result := response.data
  match isPodStandard result with
  | .error e => (false, .error e)
  | .ok false => (false, .ok result)
  | .ok true =>
    match getProp result "hasError" with
    | .error e => (true, .error e)
    | .ok hasError =>
      if !truthy hasError then (true, .ok result)
      else
        match createErrorFromPodReponse result with
        | .error e => (true, .error e)
        | .ok podError => (true, .error (.podError podError))

/-- The call `error.hasOwnProperty(key)` in the `.catch` callback.  A transport
error has the own properties recorded in it; a `TypeError` raised by the runtime
has neither `response` nor `code`; a `PodError` has the `code` it was built with
(the tests read it back as `error.code`) and no `response`. -/
def errorHasOwnProperty (error : Thrown) (key : String) : Bool :=
  match error with
  | .transportError e =>
    (key == "response" && e.response.isSome) || (key == "code" && e.code.isSome)
  | .typeError => false
  | .podError _ => key == "code"

/-- The property read `error.response` in the `.catch` callback. -/
def errorResponse (error : Thrown) : JSVal :=
  match error with
  | .transportError e => e.response.getD .undefined
  | _ => .undefined

/-- The `.catch` callback of `request`, called with the value of the variable
`isPodStandard` and the caught error.  Every path throws. -/
def catchHandler (isPodStandard : Bool) (error : Thrown) : Except Thrown JSVal :=
  if isPodStandard then .error error
  else if errorHasOwnProperty error "response" && truthy (errorResponse error) then
    match getProp (errorResponse error) "status", getProp (errorResponse error) "data",
      getProp (errorResponse error) "statusText" with
    | .ok status, .ok data, .ok statusText =>
      let code := jsOr status errors.unexpected.code
      let message := jsOr data (jsOr statusText errors.unexpected.message)
      .error (.podError (newPodError code message .null))
    | .error e, _, _ => .error e
    | _, .error e, _ => .error e
    | _, _, .error e => .error e
  else if errorHasOwnProperty error "code" then
    .error (.podError (newPodError errors.connection.code errors.connection.message .null))
  else
    .error (.podError (newPodError errors.unexpected.code errors.unexpected.message .null))

/-- The promise chain `axios(options).then(...).catch(...)` applied to the way
the promise of `axios` settles: `ok` is a resolved promise, `error` a rejected
one. -/
def settle (outcome : Except TransportError AxiosResponse) : Except Thrown JSVal :=
  match outcome with
  | .ok response =>
    match thenHandler response with
    | (_, .ok value) => .ok value
    | (isPodStandard, .error e) => catchHandler isPodStandard e
  | .error e => catchHandler false (.transportError e)

/-- The options `request` hands to `axios`, or what is thrown while they are
assembled. -/
def buildOptions (stringify : JSVal → String) (baseUrl apiPath : String)
    (method headers data isUrlEncoded : JSVal) (urlTrail : Option String) :
    Except Thrown Options :=
  let options : Options := { url := appendUrls baseUrl apiPath urlTrail, method := method }
  addBody stringify (addHeaders options headers) method headers data isUrlEncoded

/-- The method `request(baseUrl, apiPath, method, headers, data, isUrlEncoded, urlTrail)`.
The outer `Except` is a synchronous throw, the inner one the settled promise. -/
def request (axios : Options → Except TransportError AxiosResponse)
    (stringify : JSVal → String) (baseUrl apiPath : String)
    (method headers data isUrlEncoded : JSVal) (urlTrail : Option String) :
    Except Thrown (Except Thrown JSVal) :=
  match buildOptions stringify baseUrl apiPath method headers data isUrlEncoded urlTrail with
  | .error e => .error e
  | .ok options => .ok (settle (axios options))


/-! ## Readings of the specification used in the statements -/

/-- Whether a value is a number. -/
def isNumber : JSVal → Bool
  | .num _ => true
  | _ => false

/-- Whether a value is a string. -/
def isString : JSVal → Bool
  | .str _ => true
  | _ => false

/-- The field `key` of a remote response as the specification reads it: the own
property of a structured response, `undefined` when there is none. -/
def fieldOf (response : JSVal) (key : String) : JSVal :=
  match response with
  | .obj fields => (ownField fields key).getD .undefined
  | _ => .undefined

/-- A field is present, in the reading of the specification most favourable to
it: it holds a value other than `undefined` and `null`. -/
def present : JSVal → Bool
  | .undefined => false
  | .null => false
  | _ => true

/-- The code of a remote-response error as the specification words it: the
status, and 888 when the status is missing. -/
def specResponseCode (response : JSVal) : JSVal :=
  if present (fieldOf response "status") then fieldOf response "status" else .num 888

/-- The message of a remote-response error as the specification words it: the
body if present, else the status text, else the fixed message. -/
def specResponseMessage (response : JSVal) : JSVal :=
  if present (fieldOf response "data") then fieldOf response "data"
  else if present (fieldOf response "statusText") then fieldOf response "statusText"
  else .str "Unexpected Error Occurred."

/-- The first truthy value of a list, `fallback` when there is none. -/
def firstTruthy (candidates : List JSVal) (fallback : JSVal) : JSVal :=
  (candidates.find? truthy).getD fallback

/-- The fields a failing convention response supplies have the types the source
assumes: an own `errorCode` is a number and an own `message` is a string. -/
def payloadTyped (payload : JSVal) : Bool :=
  match payload with
  | .obj fields =>
    (match ownField fields "errorCode" with
      | some c => isNumber c
      | none => true) &&
    (match ownField fields "message" with
      | some m => isString m
      | none => true)
  | _ => true

/-- The fields of a remote response have the types the source assumes: the
status is a number unless it is falsy, and the first truthy one of body and
status text, if any, is a string. -/
def responseTyped (error : TransportError) : Bool :=
  match error.response with
  | some response =>
    (isNumber (fieldOf response "status") || !truthy (fieldOf response "status")) &&
    isString (firstTruthy [fieldOf response "data", fieldOf response "statusText"] (.str ""))
  | none => true

/-- The values a transport outcome supplies for code and message have the types
the source assumes. -/
def outcomeTyped (outcome : Except TransportError AxiosResponse) : Bool :=
  match outcome with
  | .ok response => payloadTyped response.data
  | .error error => responseTyped error

/-- Two strings are equal ignoring letter case: same length, and the same letter
up to case in every position. -/
def eqIgnoreCase (a b : String) : Bool :=
  a.data.length == b.data.length &&
    (List.zip a.data b.data).all (fun p => p.1.toLower == p.2.toLower)

/-- A list of characters without one trailing slash, if it has one. -/
def dropTrailingSlash (l : List Char) : List Char :=
  if l.getLast? = some '/' then l.dropLast else l

/-- A list of characters without one leading slash, if it has one. -/
def dropLeadingSlash (l : List Char) : List Char :=
  if l.head? = some '/' then l.tail else l

/-- The value of the Content-Type header that announces a form-urlencoded body. -/
def formUrlencoded : String := "application/x-www-form-urlencoded"

/-- The headers declare a form-urlencoded Content-Type, as the specification
words it: they are a mapping with a `Content-Type` entry whose value is a string
equal to `application/x-www-form-urlencoded` ignoring letter case. -/
def declaresUrlencoded (headers : JSVal) : Bool :=
  match headers with
  | .obj fields =>
    match ownField fields "Content-Type" with
    | some (.str value) => eqIgnoreCase value formUrlencoded
    | _ => false
  | _ => false

/-- The method `hasOwnProperty` can be called on a value: the value is neither
`undefined` nor `null`, and it is not an object with an own property of that
name. -/
def hasOwnPropertyCallable : JSVal → Bool
  | .undefined => false
  | .null => false
  | .obj fields => (ownField fields "hasOwnProperty").isNone
  | _ => true

/-! ## Basic facts -/

theorem newPodError_obj (code message : JSVal) (fields : List (String × JSVal)) :
    newPodError code message (.obj fields)
      = { code := code, message := message, raw := .obj fields } := rfl

theorem newPodError_null (code message : JSVal) :
    newPodError code message .null = { code := code, message := message, raw := .null } := rfl

theorem request_eq_settle (axios : Options → Except TransportError AxiosResponse)
    (stringify : JSVal → String) (baseUrl apiPath : String)
    (method headers data isUrlEncoded : JSVal) (urlTrail : Option String) (options : Options)
    (hb : buildOptions stringify baseUrl apiPath method headers data isUrlEncoded urlTrail
      = .ok options) :
    request axios stringify baseUrl apiPath method headers data isUrlEncoded urlTrail
      = .ok (settle (axios options)) := by
  simp [request, hb]

theorem callHasOwnProperty_obj (fields : List (String × JSVal)) (key : String)
    (hs : ownField fields "hasOwnProperty" = none) :
    callHasOwnProperty (.obj fields) key = .ok (ownField fields key).isSome := by
  simp [callHasOwnProperty, hs, hasOwn]

theorem getProp_of_truthy (v : JSVal) (key : String) (hv : truthy v = true) :
    getProp v key = .ok (fieldOf v key) := by
  cases v <;> simp_all [getProp, fieldOf, truthy]

theorem settle_hasError_false (fields : List (String × JSVal))
    (hs : ownField fields "hasOwnProperty" = none)
    (he : ownField fields "hasError" = some (.bool false)) :
    settle (.ok ⟨.obj fields⟩) = .ok (.obj fields) := by
  simp [settle, thenHandler, isPodStandard, typeOf, callHasOwnProperty_obj _ _ hs, he, getProp,
    truthy]


theorem settle_hasError_true (fields : List (String × JSVal)) (h : JSVal)
    (hs : ownField fields "hasOwnProperty" = none)
    (he : ownField fields "hasError" = some h) (ht : truthy h = true) :
    settle (.ok ⟨.obj fields⟩) = .error (.podError
      ⟨(ownField fields "errorCode").getD (.num 888),
        (ownField fields "message").getD (.str "Unexpected Error Occurred."), .obj fields⟩) := by
  cases hc : ownField fields "errorCode" <;> cases hm : ownField fields "message" <;>
    simp [settle, thenHandler, isPodStandard, typeOf, callHasOwnProperty_obj _ _ hs, he, getProp,
      ht, createErrorFromPodReponse, ownOrElse, hc, hm, catchHandler, errors.unexpected.code,
      errors.unexpected.message] <;>
    cases hC : ownField fields "ErrorCode" <;> cases hM : ownField fields "Message" <;>
    simp [newPodError_obj]

theorem settle_typeError :
    catchHandler false .typeError
      = .error (.podError ⟨.num 888, .str "Unexpected Error Occurred.", .null⟩) := rfl

theorem settle_shadowed (fields : List (String × JSVal)) (v : JSVal)
    (hs : ownField fields "hasOwnProperty" = some v) :
    settle (.ok ⟨.obj fields⟩)
      = .error (.podError ⟨.num 888, .str "Unexpected Error Occurred.", .null⟩) := by
  simp [settle, thenHandler, isPodStandard, typeOf, callHasOwnProperty, hs, settle_typeError]

theorem settle_hasError_falsy (fields : List (String × JSVal)) (h : JSVal)
    (hs : ownField fields "hasOwnProperty" = none)
    (he : ownField fields "hasError" = some h) (ht : truthy h = false) :
    settle (.ok ⟨.obj fields⟩) = .ok (.obj fields) := by
  simp [settle, thenHandler, isPodStandard, typeOf, callHasOwnProperty_obj _ _ hs, he, getProp, ht]

theorem settle_capital_only (fields : List (String × JSVal)) (h : JSVal)
    (hs : ownField fields "hasOwnProperty" = none)
    (he : ownField fields "hasError" = none) (hE : ownField fields "HasError" = some h) :
    settle (.ok ⟨.obj fields⟩) = .ok (.obj fields) := by
  simp [settle, thenHandler, isPodStandard, typeOf, callHasOwnProperty_obj _ _ hs, he, hE, getProp,
    truthy]

theorem settle_plain_obj (fields : List (String × JSVal))
    (hs : ownField fields "hasOwnProperty" = none)
    (he : ownField fields "hasError" = none) (hE : ownField fields "HasError" = none) :
    settle (.ok ⟨.obj fields⟩) = .ok (.obj fields) := by
  simp [settle, thenHandler, isPodStandard, typeOf, callHasOwnProperty_obj _ _ hs, he, hE]

theorem settle_arr (items : List JSVal) :
    settle (.ok ⟨.arr items⟩) = .ok (.arr items) := rfl

theorem settle_not_object (payload : JSVal) (hp : typeOf payload ≠ "object") :
    settle (.ok ⟨payload⟩) = .ok payload := by
  simp [settle, thenHandler, isPodStandard, hp]

theorem settle_null :
    settle (.ok ⟨.null⟩)
      = .error (.podError ⟨.num 888, .str "Unexpected Error Occurred.", .null⟩) := rfl

/-- What the promise chain does with a transport success, case by case. -/
theorem settle_ok_cases (payload : JSVal) :
    settle (.ok ⟨payload⟩) = .ok payload ∨
    settle (.ok ⟨payload⟩)
      = .error (.podError ⟨.num 888, .str "Unexpected Error Occurred.", .null⟩) ∨
    ∃ fields, payload = .obj fields ∧
      settle (.ok ⟨payload⟩) = .error (.podError
        ⟨(ownField fields "errorCode").getD (.num 888),
          (ownField fields "message").getD (.str "Unexpected Error Occurred."), payload⟩) := by
  cases payload with
  | undefined => exact Or.inl rfl
  | null => exact Or.inr (Or.inl rfl)
  | bool b => exact Or.inl rfl
  | num n => exact Or.inl rfl
  | str s => exact Or.inl rfl
  | arr items => exact Or.inl rfl
  | obj fields =>
    cases hs : ownField fields "hasOwnProperty" with
    | some v => exact Or.inr (Or.inl (settle_shadowed fields v hs))
    | none =>
      cases he : ownField fields "hasError" with
      | some h =>
        cases ht : truthy h with
        | true => exact Or.inr (Or.inr ⟨fields, rfl, settle_hasError_true fields h hs he ht⟩)
        | false => exact Or.inl (settle_hasError_falsy fields h hs he ht)
      | none =>
        cases hE : ownField fields "HasError" with
        | some h => exact Or.inl (settle_capital_only fields h hs he hE)
        | none => exact Or.inl (settle_plain_obj fields hs he hE)

/-- What the promise chain does with a transport failure carrying a truthy
remote response. -/
theorem settle_response (error : TransportError) (response : JSVal)
    (hr : error.response = some response) (ht : truthy response = true) :
    settle (.error error) = .error (.podError
      ⟨firstTruthy [fieldOf response "status"] (.num 888),
        firstTruthy [fieldOf response "data", fieldOf response "statusText"]
          (.str "Unexpected Error Occurred."), .null⟩) := by
  have h1 : errorHasOwnProperty (.transportError error) "response" = true := by
    simp [errorHasOwnProperty, hr]
  have h2 : errorResponse (.transportError error) = response := by
    simp [errorResponse, hr]
  simp only [settle, catchHandler, h1, h2, ht, getProp_of_truthy _ _ ht]
  simp only [firstTruthy, List.find?, jsOr, errors.unexpected.code, errors.unexpected.message]
  cases truthy (fieldOf response "status") <;> cases truthy (fieldOf response "data") <;>
    cases truthy (fieldOf response "statusText") <;> simp [newPodError_null]

/-- What the promise chain does with a transport failure carrying no truthy
remote response. -/
theorem settle_no_response (error : TransportError)
    (hr : ∀ response, error.response = some response → truthy response = false) :
    settle (.error error) =
      if error.code.isSome then
        .error (.podError ⟨.num 889, .str "Connection Error Occurred.", .null⟩)
      else .error (.podError ⟨.num 888, .str "Unexpected Error Occurred.", .null⟩) := by
  have h1 : (errorHasOwnProperty (.transportError error) "response" &&
      truthy (errorResponse (.transportError error))) = false := by
    cases h : error.response with
    | none => simp [errorHasOwnProperty, h]
    | some r => simp [errorHasOwnProperty, errorResponse, h, hr r h]
  have h2 : errorHasOwnProperty (.transportError error) "code" = error.code.isSome := by
    simp [errorHasOwnProperty]
  simp only [settle, catchHandler, h1, h2]
  cases error.code.isSome <;> rfl

/-! ## Convention responses -/

/-- C1 (the code departs from the claim): a payload with an own field `hasError`
equal to `false` that also carries an own field named `hasOwnProperty` is not
resolved; the call `result.hasOwnProperty('hasError')` throws and `request`
rejects with the 888 error. -/
theorem request_hasError_false_shadowed (stringify : JSVal → String) :
    request
      (fun _ => .ok ⟨.obj [("hasError", .bool false), ("result", .arr []),
        ("hasOwnProperty", .bool true)]⟩)
      stringify "http://sandbox.pod.land/srv/basic-platform/" "/nzh/guildList" (.str "GET")
      (.obj [("_token_", .str "2ffa86c3775e4883b4033269a5d18166"), ("_token_issuer_", .str "1")])
      (.obj [("offset", .str "1"), ("size", .str "300")]) .undefined none
    = .ok (.error (.podError ⟨.num 888, .str "Unexpected Error Occurred.", .null⟩)) := rfl

/-- Apart from that case the payload is handed over: a payload with an own field
`hasError` equal to `false` and no own field named `hasOwnProperty` is the value
`request` resolves to, whatever its other fields. -/
theorem request_hasError_false_resolves
    (axios : Options → Except TransportError AxiosResponse) (stringify : JSVal → String)
    (baseUrl apiPath : String) (method headers data isUrlEncoded : JSVal)
    (urlTrail : Option String) (options : Options) (fields : List (String × JSVal))
    (hb : buildOptions stringify baseUrl apiPath method headers data isUrlEncoded urlTrail
      = .ok options)
    (ht : axios options = .ok ⟨.obj fields⟩)
    (hs : ownField fields "hasOwnProperty" = none)
    (he : ownField fields "hasError" = some (.bool false)) :
    request axios stringify baseUrl apiPath method headers data isUrlEncoded urlTrail
      = .ok (.ok (.obj fields)) := by
  rw [request_eq_settle _ _ _ _ _ _ _ _ _ _ hb, ht, settle_hasError_false fields hs he]

/-- C2 (the code departs from the claim): a payload with own fields
`hasError = true`, `errorCode = 21`, `message = "Token invalid"` that also carries
an own field named `hasOwnProperty` is rejected with the 888 error, not with
code 21 and the payload as raw. -/
theorem request_hasError_true_shadowed (stringify : JSVal → String) :
    request
      (fun _ => .ok ⟨.obj [("hasError", .bool true), ("errorCode", .num 21),
        ("message", .str "Token invalid"), ("hasOwnProperty", .bool true)]⟩)
      stringify "http://sandbox.pod.land/srv/basic-platform/" "/nzh/guildList" (.str "GET")
      (.obj [("_token_issuer_", .str "1")])
      (.obj [("offset", .str "1"), ("size", .str "300")]) .undefined none
    = .ok (.error (.podError ⟨.num 888, .str "Unexpected Error Occurred.", .null⟩)) := rfl

/-- Apart from that case the error of a failing convention response reaches the
caller unchanged: with own fields `hasError = true`, `errorCode = c`,
`message = m` and no own field named `hasOwnProperty`, `request` rejects with
`{code: c, message: m, raw: payload}`. -/
theorem request_hasError_true_rejects
    (axios : Options → Except TransportError AxiosResponse) (stringify : JSVal → String)
    (baseUrl apiPath : String) (method headers data isUrlEncoded : JSVal)
    (urlTrail : Option String) (options : Options) (fields : List (String × JSVal))
    (c m : JSVal)
    (hb : buildOptions stringify baseUrl apiPath method headers data isUrlEncoded urlTrail
      = .ok options)
    (ht : axios options = .ok ⟨.obj fields⟩)
    (hs : ownField fields "hasOwnProperty" = none)
    (he : ownField fields "hasError" = some (.bool true))
    (hc : ownField fields "errorCode" = some c)
    (hm : ownField fields "message" = some m) :
    request axios stringify baseUrl apiPath method headers data isUrlEncoded urlTrail
      = .ok (.error (.podError ⟨c, m, .obj fields⟩)) := by
  rw [request_eq_settle _ _ _ _ _ _ _ _ _ _ hb, ht,
    settle_hasError_true fields (.bool true) hs he rfl, hc, hm]
  rfl

/-! ## Transport failures -/

/-- C3 as worded fails: with status 500, body `false` and status text
"Internal Server Error" the body is present, yet the message of the rejection is
the status text. -/
theorem request_response_falsy_body :
    request
      (fun _ => .error ⟨some (.obj [("status", .num 500), ("data", .bool false),
        ("statusText", .str "Internal Server Error")]), none⟩)
      (fun _ => "") "http://sandbox.pod.land/srv/basic-platform/" "/nzh/guildList100"
      (.str "GET") (.obj [("_token_issuer_", .str "1")])
      (.obj [("offset", .str "1"), ("size", .str "300")]) .undefined none
    ≠ .ok (.error (.podError
      ⟨specResponseCode (.obj [("status", .num 500), ("data", .bool false),
          ("statusText", .str "Internal Server Error")]),
        specResponseMessage (.obj [("status", .num 500), ("data", .bool false),
          ("statusText", .str "Internal Server Error")]), .null⟩)) := by
  intro h
  have h1 : request
      (fun _ => .error ⟨some (.obj [("status", .num 500), ("data", .bool false),
        ("statusText", .str "Internal Server Error")]), none⟩)
      (fun _ => "") "http://sandbox.pod.land/srv/basic-platform/" "/nzh/guildList100"
      (.str "GET") (.obj [("_token_issuer_", .str "1")])
      (.obj [("offset", .str "1"), ("size", .str "300")]) .undefined none
    = .ok (.error (.podError ⟨.num 500, .str "Internal Server Error", .null⟩)) := rfl
  have h2 : specResponseMessage (.obj [("status", .num 500), ("data", .bool false),
      ("statusText", .str "Internal Server Error")]) = .bool false := rfl
  rw [h1, h2] at h
  injection h with h
  injection h with h
  injection h with h
  injection h with _ h _
  cases h

/-- C3 (amended): for every transport failure carrying a truthy remote response,
with or without a transport-level `code`, `request` rejects with a PodError whose
code is the response status if that is truthy and 888 otherwise, whose message is
the first truthy one of response body and status text and
"Unexpected Error Occurred." if neither is, and whose raw is `null`. -/
theorem request_response_error
    (axios : Options → Except TransportError AxiosResponse) (stringify : JSVal → String)
    (baseUrl apiPath : String) (method headers data isUrlEncoded : JSVal)
    (urlTrail : Option String) (options : Options) (error : TransportError)
    (response : JSVal)
    (hb : buildOptions stringify baseUrl apiPath method headers data isUrlEncoded urlTrail
      = .ok options)
    (ht : axios options = .error error)
    (hr : error.response = some response) (hv : truthy response = true) :
    request axios stringify baseUrl apiPath method headers data isUrlEncoded urlTrail
      = .ok (.error (.podError
        ⟨firstTruthy [fieldOf response "status"] (.num 888),
          firstTruthy [fieldOf response "data", fieldOf response "statusText"]
            (.str "Unexpected Error Occurred."), .null⟩)) := by
  rw [request_eq_settle _ _ _ _ _ _ _ _ _ _ hb, ht, settle_response error response hr hv]

/-- C4: for every transport failure that carries no truthy remote response but
has an own `code` property, of any value, `request` rejects with exactly
`{code: 889, message: "Connection Error Occurred.", raw: null}`. -/
theorem request_connection_error
    (axios : Options → Except TransportError AxiosResponse) (stringify : JSVal → String)
    (baseUrl apiPath : String) (method headers data isUrlEncoded : JSVal)
    (urlTrail : Option String) (options : Options) (error : TransportError) (code : JSVal)
    (hb : buildOptions stringify baseUrl apiPath method headers data isUrlEncoded urlTrail
      = .ok options)
    (ht : axios options = .error error)
    (hr : ∀ response, error.response = some response → truthy response = false)
    (hc : error.code = some code) :
    request axios stringify baseUrl apiPath method headers data isUrlEncoded urlTrail
      = .ok (.error (.podError ⟨.num 889, .str "Connection Error Occurred.", .null⟩)) := by
  rw [request_eq_settle _ _ _ _ _ _ _ _ _ _ hb, ht, settle_no_response error hr, hc]
  rfl

/-- C5: for every transport failure that carries neither a truthy remote response
nor an own `code` property, `request` rejects with exactly
`{code: 888, message: "Unexpected Error Occurred.", raw: null}`. -/
theorem request_unexpected_error
    (axios : Options → Except TransportError AxiosResponse) (stringify : JSVal → String)
    (baseUrl apiPath : String) (method headers data isUrlEncoded : JSVal)
    (urlTrail : Option String) (options : Options) (error : TransportError)
    (hb : buildOptions stringify baseUrl apiPath method headers data isUrlEncoded urlTrail
      = .ok options)
    (ht : axios options = .error error)
    (hr : ∀ response, error.response = some response → truthy response = false)
    (hc : error.code = none) :
    request axios stringify baseUrl apiPath method headers data isUrlEncoded urlTrail
      = .ok (.error (.podError ⟨.num 888, .str "Unexpected Error Occurred.", .null⟩)) := by
  rw [request_eq_settle _ _ _ _ _ _ _ _ _ _ hb, ht, settle_no_response error hr, hc]
  rfl

/-- C3 (amended) at status 500: the rejection has code 500, also though the
failure carries a transport-level `code` as well. -/
theorem request_response_error_witness :
    buildOptions (fun _ => "") "http://h/" "/p" (.str "GET") (.obj []) (.obj []) .undefined none
      = .ok ⟨"http://h/p", .str "GET", some (.obj []), some (.obj []), none⟩ ∧
    (fun _ => Except.error ⟨some (.obj [("status", .num 500), ("data", .str ""),
        ("statusText", .str "Internal Server Error")]), some (.str "ERR_BAD_RESPONSE")⟩
      : Options → Except TransportError AxiosResponse)
        ⟨"http://h/p", .str "GET", some (.obj []), some (.obj []), none⟩
      = .error ⟨some (.obj [("status", .num 500), ("data", .str ""),
        ("statusText", .str "Internal Server Error")]), some (.str "ERR_BAD_RESPONSE")⟩ ∧
    truthy (.obj [("status", .num 500), ("data", .str ""),
      ("statusText", .str "Internal Server Error")]) = true ∧
    request
      (fun _ => .error ⟨some (.obj [("status", .num 500), ("data", .str ""),
        ("statusText", .str "Internal Server Error")]), some (.str "ERR_BAD_RESPONSE")⟩)
      (fun _ => "") "http://h/" "/p" (.str "GET") (.obj []) (.obj []) .undefined none
    = .ok (.error (.podError ⟨.num 500, .str "Internal Server Error", .null⟩)) :=
  ⟨rfl, rfl, rfl,
    request_response_error _ (fun _ => "") "http://h/" "/p" (.str "GET") (.obj []) (.obj [])
      .undefined none ⟨"http://h/p", .str "GET", some (.obj []), some (.obj []), none⟩
      ⟨some (.obj [("status", .num 500), ("data", .str ""),
        ("statusText", .str "Internal Server Error")]), some (.str "ERR_BAD_RESPONSE")⟩
      (.obj [("status", .num 500), ("data", .str ""),
        ("statusText", .str "Internal Server Error")]) rfl rfl rfl rfl⟩

/-- C4 at a refused connection: no response, `code = "ECONNREFUSED"`. -/
theorem request_connection_error_witness :
    buildOptions (fun _ => "") "http://h/" "/p" (.str "GET") (.obj []) (.obj []) .undefined none
      = .ok ⟨"http://h/p", .str "GET", some (.obj []), some (.obj []), none⟩ ∧
    (∀ response, (⟨none, some (.str "ECONNREFUSED")⟩ : TransportError).response = some response →
      truthy response = false) ∧
    request (fun _ => .error ⟨none, some (.str "ECONNREFUSED")⟩)
      (fun _ => "") "http://h/" "/p" (.str "GET") (.obj []) (.obj []) .undefined none
    = .ok (.error (.podError ⟨.num 889, .str "Connection Error Occurred.", .null⟩)) :=
  ⟨rfl, (by intro response h; cases h),
    request_connection_error (fun _ => .error ⟨none, some (.str "ECONNREFUSED")⟩) (fun _ => "")
      "http://h/" "/p" (.str "GET") (.obj []) (.obj [])
      .undefined none ⟨"http://h/p", .str "GET", some (.obj []), some (.obj []), none⟩
      ⟨none, some (.str "ECONNREFUSED")⟩ (.str "ECONNREFUSED") rfl rfl
      (by intro response h; cases h) rfl⟩

/-- C5 at a failure with an own `response` that is `undefined` and no `code`. -/
theorem request_unexpected_error_witness :
    buildOptions (fun _ => "") "http://h/" "/p" (.str "GET") (.obj []) (.obj []) .undefined none
      = .ok ⟨"http://h/p", .str "GET", some (.obj []), some (.obj []), none⟩ ∧
    (∀ response, (⟨some .undefined, none⟩ : TransportError).response = some response →
      truthy response = false) ∧
    request (fun _ => .error ⟨some .undefined, none⟩)
      (fun _ => "") "http://h/" "/p" (.str "GET") (.obj []) (.obj []) .undefined none
    = .ok (.error (.podError ⟨.num 888, .str "Unexpected Error Occurred.", .null⟩)) :=
  ⟨rfl, (by intro response h; cases h; rfl),
    request_unexpected_error (fun _ => .error ⟨some .undefined, none⟩) (fun _ => "")
      "http://h/" "/p" (.str "GET") (.obj []) (.obj [])
      .undefined none ⟨"http://h/p", .str "GET", some (.obj []), some (.obj []), none⟩
      ⟨some .undefined, none⟩ rfl rfl (by intro response h; cases h; rfl) rfl⟩

/-! ## The shape of a rejection -/

/-- C6 as worded fails: a remote response whose body is a structured object gives
a rejection whose message is that object, not a string. -/
theorem request_rejection_message_not_string :
    request
      (fun _ => .error ⟨some (.obj [("status", .num 500),
        ("data", .obj [("error", .str "Internal Server Error")]),
        ("statusText", .str "Internal Server Error")]), none⟩)
      (fun _ => "") "http://h/" "/p" (.str "GET") (.obj []) (.obj []) .undefined none
    = .ok (.error (.podError
        ⟨.num 500, .obj [("error", .str "Internal Server Error")], .null⟩)) ∧
    isString (.obj [("error", .str "Internal Server Error")]) = false :=
  ⟨rfl, rfl⟩

/-- C6 (amended): whatever the transport outcome, whenever `request` rejects the
rejection value is a PodError; its code and message are taken over unchecked, and
they are a number and a string whenever the values they are read from are (an own
`errorCode` and `message` of the payload; the status and the first truthy one of
body and status text of the remote response). -/
theorem request_rejects_with_podError
    (axios : Options → Except TransportError AxiosResponse) (stringify : JSVal → String)
    (baseUrl apiPath : String) (method headers data isUrlEncoded : JSVal)
    (urlTrail : Option String) (options : Options) (thrown : Thrown)
    (hb : buildOptions stringify baseUrl apiPath method headers data isUrlEncoded urlTrail
      = .ok options)
    (hrej : request axios stringify baseUrl apiPath method headers data isUrlEncoded urlTrail
      = .ok (.error thrown)) :
    ∃ e : PodError, thrown = .podError e ∧
      (outcomeTyped (axios options) = true →
        isNumber e.code = true ∧ isString e.message = true) := by
  rw [request_eq_settle _ _ _ _ _ _ _ _ _ _ hb] at hrej
  have hinj : ∀ {a b : Thrown},
      (Except.ok (Except.error a) : Except Thrown (Except Thrown JSVal)) = .ok (.error b) →
        a = b := by
    intro a b h
    injection h with h
    injection h
  cases hax : axios options with
  | ok response =>
    obtain ⟨payload⟩ := response
    rw [hax] at hrej
    rcases settle_ok_cases payload with h | h | ⟨fields, hp, h⟩
    · rw [h] at hrej; cases hrej
    · rw [h] at hrej
      have hthrown := hinj hrej
      subst hthrown
      exact ⟨_, rfl, fun _ => ⟨rfl, rfl⟩⟩
    · rw [h] at hrej
      have hthrown := hinj hrej
      subst hthrown
      refine ⟨_, rfl, fun ht => ?_⟩
      subst hp
      simp only [outcomeTyped, payloadTyped, Bool.and_eq_true] at ht
      constructor
      · cases hc : ownField fields "errorCode" with
        | none => rfl
        | some c => simpa [hc] using ht.1
      · cases hm : ownField fields "message" with
        | none => rfl
        | some m => simpa [hm] using ht.2
  | error error =>
    rw [hax] at hrej
    by_cases hr : ∃ response, error.response = some response ∧ truthy response = true
    · obtain ⟨response, hr1, hr2⟩ := hr
      rw [settle_response error response hr1 hr2] at hrej
      have hthrown := hinj hrej
      subst hthrown
      refine ⟨_, rfl, fun ht => ?_⟩
      simp only [outcomeTyped, responseTyped, hr1, Bool.and_eq_true, Bool.or_eq_true] at ht
      obtain ⟨hs, hm⟩ := ht
      refine ⟨?_, ?_⟩
      · show isNumber (firstTruthy [fieldOf response "status"] (.num 888)) = true
        cases hst : truthy (fieldOf response "status") with
        | true =>
          have : firstTruthy [fieldOf response "status"] (.num 888) = fieldOf response "status" := by
            simp [firstTruthy, List.find?, hst]
          rw [this]
          rcases hs with hs | hs
          · exact hs
          · simp [hst] at hs
        | false =>
          have : firstTruthy [fieldOf response "status"] (.num 888) = .num 888 := by
            simp [firstTruthy, List.find?, hst]
          rw [this]; rfl
      · show isString (firstTruthy [fieldOf response "data", fieldOf response "statusText"]
          (.str "Unexpected Error Occurred.")) = true
        cases hd : truthy (fieldOf response "data") with
        | true => simpa [firstTruthy, List.find?, hd] using hm
        | false =>
          cases hx : truthy (fieldOf response "statusText") with
          | true => simpa [firstTruthy, List.find?, hd, hx] using hm
          | false => simp [firstTruthy, List.find?, hd, hx, isString]
    · have hr2 : ∀ response, error.response = some response → truthy response = false := by
        intro response h
        cases ht : truthy response with
        | false => rfl
        | true => exact absurd ⟨response, h, ht⟩ hr
      rw [settle_no_response error hr2] at hrej
      cases hc : error.code.isSome with
      | true =>
        rw [hc] at hrej
        have hthrown := hinj hrej
        subst hthrown
        exact ⟨_, rfl, fun _ => ⟨rfl, rfl⟩⟩
      | false =>
        rw [hc] at hrej
        have hthrown := hinj hrej
        subst hthrown
        exact ⟨_, rfl, fun _ => ⟨rfl, rfl⟩⟩

/-- C6 (amended) at the failing convention response of the tests: the rejection
is a PodError with the number 21 as code and a string as message. -/
theorem request_rejects_with_podError_witness :
    buildOptions (fun _ => "") "http://h/" "/p" (.str "GET") (.obj []) (.obj []) .undefined none
      = .ok ⟨"http://h/p", .str "GET", some (.obj []), some (.obj []), none⟩ ∧
    request
      (fun _ => .ok ⟨.obj [("hasError", .bool true), ("errorCode", .num 21),
        ("message", .str "Token invalid")]⟩)
      (fun _ => "") "http://h/" "/p" (.str "GET") (.obj []) (.obj []) .undefined none
      = .ok (.error (.podError ⟨.num 21, .str "Token invalid",
        .obj [("hasError", .bool true), ("errorCode", .num 21),
          ("message", .str "Token invalid")]⟩)) ∧
    ∃ e : PodError,
      Thrown.podError ⟨.num 21, .str "Token invalid",
        .obj [("hasError", .bool true), ("errorCode", .num 21),
          ("message", .str "Token invalid")]⟩ = .podError e ∧
      (outcomeTyped ((fun _ => .ok ⟨.obj [("hasError", .bool true), ("errorCode", .num 21),
          ("message", .str "Token invalid")]⟩ : Options → Except TransportError AxiosResponse)
          ⟨"http://h/p", .str "GET", some (.obj []), some (.obj []), none⟩) = true →
        isNumber e.code = true ∧ isString e.message = true) :=
  ⟨rfl, rfl,
    request_rejects_with_podError
      (fun _ => .ok ⟨.obj [("hasError", .bool true), ("errorCode", .num 21),
        ("message", .str "Token invalid")]⟩)
      (fun _ => "") "http://h/" "/p" (.str "GET") (.obj []) (.obj []) .undefined none
      ⟨"http://h/p", .str "GET", some (.obj []), some (.obj []), none⟩ _ rfl rfl⟩

/-! ## The capitalised indicator and plain payloads -/

/-- C7 (the code departs from the claim): a payload exposing `HasError = true`
and no lowercase `hasError` is recognised by `isPodStandard`, but the failure test
reads `result.hasError`, which is `undefined`, and `request` resolves to the
payload instead of rejecting. -/
theorem request_capital_HasError_resolves (stringify : JSVal → String) :
    isPodStandard (.obj [("HasError", .bool true), ("ErrorCode", .num 21),
      ("Message", .str "Token invalid")]) = .ok true ∧
    request
      (fun _ => .ok ⟨.obj [("HasError", .bool true), ("ErrorCode", .num 21),
        ("Message", .str "Token invalid")]⟩)
      stringify "http://sandbox.pod.land/srv/basic-platform/" "/nzh/guildList" (.str "GET")
      (.obj [("_token_issuer_", .str "1")])
      (.obj [("offset", .str "1"), ("size", .str "300")]) .undefined none
    = .ok (.ok (.obj [("HasError", .bool true), ("ErrorCode", .num 21),
      ("Message", .str "Token invalid")])) :=
  ⟨rfl, rfl⟩

/-- C8 (the code departs from the claim): the payload `null` passes
`typeof inpParam === 'object'`, the call `inpParam.hasOwnProperty('hasError')` on
it throws, and `request` rejects with the 888 error instead of resolving to
`null`. -/
theorem request_null_payload_rejects (stringify : JSVal → String) :
    typeOf .null = "object" ∧
    request (fun _ => .ok ⟨.null⟩)
      stringify "http://sandbox.pod.land/srv/basic-platform/" "/nzh/guildList" (.str "GET")
      (.obj [("_token_issuer_", .str "1")])
      (.obj [("offset", .str "1"), ("size", .str "300")]) .undefined none
    = .ok (.error (.podError ⟨.num 888, .str "Unexpected Error Occurred.", .null⟩)) :=
  ⟨rfl, rfl⟩

/-- The other payloads that are not convention responses are handed over
unchanged: `undefined`, booleans, numbers, strings, arrays, and objects with no
own field `hasError`, `HasError` or `hasOwnProperty`. -/
theorem settle_not_convention (payload : JSVal)
    (hn : payload ≠ .null)
    (ho : ∀ fields, payload = .obj fields →
      ownField fields "hasOwnProperty" = none ∧ ownField fields "hasError" = none ∧
        ownField fields "HasError" = none) :
    settle (.ok ⟨payload⟩) = .ok payload := by
  cases payload with
  | null => exact absurd rfl hn
  | obj fields =>
    obtain ⟨hs, he, hE⟩ := ho fields rfl
    exact settle_plain_obj fields hs he hE
  | undefined => rfl
  | bool b => rfl
  | num n => rfl
  | str s => rfl
  | arr items => rfl

/-! ## URL joining -/

theorem getLast_ne_slash (a : String) (ha : ∀ p : String, a ≠ p ++ "/") :
    a.data.getLast? ≠ some '/' := by
  intro h
  apply ha (String.mk a.data.dropLast)
  apply String.ext
  simp only [String.data_append]
  exact (List.dropLast_append_getLast? '/' (by simpa using h)).symm

theorem head_ne_slash (b : String) (hb : ∀ q : String, b ≠ "/" ++ q) :
    b.data.head? ≠ some '/' := by
  intro h
  apply hb (String.mk b.data.tail)
  apply String.ext
  simp only [String.data_append]
  cases hd : b.data with
  | nil => simp [hd] at h
  | cons c cs =>
    simp [hd] at h
    subst h
    rfl

theorem ne_append_slash (a : String) (h : a.data.getLast? ≠ some '/') :
    ∀ p : String, a ≠ p ++ "/" := by
  intro p hp
  apply h
  rw [hp]
  simp [String.data_append, show ("/" : String).data = ['/'] from rfl]

theorem ne_slash_append (b : String) (h : b.data.head? ≠ some '/') :
    ∀ q : String, b ≠ "/" ++ q := by
  intro q hq
  apply h
  rw [hq]
  simp [String.data_append, show ("/" : String).data = ['/'] from rfl]

/-- C9: for every string `a` that does not end with a slash, every string `b`
that does not start with one, and each choice of `s` and `t` among the empty
string and the slash, `checkAndAppend (a ++ s) (t ++ b)` is `a`, one slash, `b`. -/
theorem checkAndAppend_single_separator (a b s t : String)
    (ha : ∀ p : String, a ≠ p ++ "/") (hb : ∀ q : String, b ≠ "/" ++ q)
    (hs : s = "" ∨ s = "/") (ht : t = "" ∨ t = "/") :
    checkAndAppend (a ++ s) (t ++ b) = a ++ "/" ++ b := by
  have h1 := getLast_ne_slash a ha
  have h2 := head_ne_slash b hb
  have e1 : ("/" : String).data = ['/'] := rfl
  have e0 : ("" : String).data = [] := rfl
  rcases hs with rfl | rfl <;> rcases ht with rfl | rfl <;>
    simp [checkAndAppend, String.data_append, e1, e0, h1, h2] <;>
    (apply String.ext; simp [String.data_append])

/-- C9 at `http://h/` joined with `/p`: both slashes present, one is kept. -/
theorem checkAndAppend_single_separator_witness :
    (∀ p : String, "http://h" ≠ p ++ "/") ∧ (∀ q : String, "p" ≠ "/" ++ q) ∧
    ("/" = "" ∨ "/" = "/") ∧
    checkAndAppend ("http://h" ++ "/") ("/" ++ "p") = "http://h" ++ "/" ++ "p" :=
  ⟨ne_append_slash "http://h" (by decide), ne_slash_append "p" (by decide), Or.inr rfl,
    checkAndAppend_single_separator "http://h" "p" "/" "/"
      (ne_append_slash "http://h" (by decide)) (ne_slash_append "p" (by decide))
      (Or.inr rfl) (Or.inr rfl)⟩

/-! ## Body placement -/

theorem toLowerCase_get (m : String) (hm : eqIgnoreCase m "get" = true) :
    toLowerCase m = "get" := by
  obtain ⟨l⟩ := m
  have e : ("get" : String).data = ['g', 'e', 't'] := rfl
  simp only [eqIgnoreCase, e, Bool.and_eq_true, beq_iff_eq] at hm
  obtain ⟨hlen, hall⟩ := hm
  match l, hlen with
  | [x, y, z], _ =>
    simp only [List.zip_cons_cons, List.zip_nil_right, List.all_cons, List.all_nil,
      Bool.and_true, Bool.and_eq_true, beq_iff_eq] at hall
    obtain ⟨hx, hy, hz⟩ := hall
    have gx : 'g'.toLower = 'g' := by decide
    have gy : 'e'.toLower = 'e' := by decide
    have gz : 't'.toLower = 't' := by decide
    apply String.ext
    simp [toLowerCase, hx, hy, hz, gx, gy, gz, e]

/-- C10: for every method string equal to `get` ignoring letter case and every
structured `data`, whatever the headers and the `isUrlEncoded` flag, `addBody`
sets `params` to `data`, unmodified, and leaves every other property of the
options, the body among them, as it was; the options `request` hands to the
transport so carry `params = data` and no body. -/
theorem addBody_get_params (stringify : JSVal → String) (options : Options) (m : String)
    (headers isUrlEncoded : JSVal) (fields : List (String × JSVal))
    (baseUrl apiPath : String) (urlTrail : Option String)
    (hm : eqIgnoreCase m "get" = true) :
    addBody stringify options (.str m) headers (.obj fields) isUrlEncoded
      = .ok { options with params := some (.obj fields) } ∧
    buildOptions stringify baseUrl apiPath (.str m) headers (.obj fields) isUrlEncoded urlTrail
      = .ok { url := appendUrls baseUrl apiPath urlTrail, method := .str m,
              headers := if typeOf headers = "object" then some headers else none,
              params := some (.obj fields), data := none } := by
  have h := toLowerCase_get m hm
  have hadd : ∀ o : Options, addBody stringify o (.str m) headers (.obj fields) isUrlEncoded
      = .ok { o with params := some (.obj fields) } := by
    intro o
    simp [addBody, typeOf, h]
  refine ⟨hadd options, ?_⟩
  rw [buildOptions, hadd, addHeaders]
  by_cases hh : typeOf headers = "object" <;> simp [hh]


/-- C10 at method `GeT`, with a form-urlencoded Content-Type and the flag set:
the data still goes to `params` and no body is set. -/
theorem addBody_get_params_witness :
    eqIgnoreCase "GeT" "get" = true ∧
    buildOptions (fun _ => "offset=1") "http://h/" "/p" (.str "GeT")
      (.obj [("Content-Type", .str "application/x-www-form-urlencoded")])
      (.obj [("offset", .str "1")]) (.bool true) none
    = .ok { url := "http://h/p", method := .str "GeT",
            headers := some (.obj [("Content-Type", .str "application/x-www-form-urlencoded")]),
            params := some (.obj [("offset", .str "1")]), data := none } :=
  ⟨rfl,
    (addBody_get_params (fun _ => "offset=1") ⟨"", .undefined, none, none, none⟩ "GeT"
      (.obj [("Content-Type", .str "application/x-www-form-urlencoded")]) (.bool true)
      [("offset", .str "1")] "http://h/" "/p" none rfl).2⟩

/-! ## URL joining is associative -/

theorem nil_or_snoc (l : List Char) : l = [] ∨ ∃ w c, l = w ++ [c] := by
  rcases List.eq_nil_or_concat l with h | ⟨w, c, h⟩
  · exact Or.inl h
  · exact Or.inr ⟨w, c, by rw [h, List.concat_eq_append]⟩

theorem dropTrailingSlash_nil : dropTrailingSlash [] = [] := rfl

theorem dropLeadingSlash_nil : dropLeadingSlash [] = [] := rfl

theorem dropTrailingSlash_snoc (l : List Char) (c : Char) :
    dropTrailingSlash (l ++ [c]) = if c = '/' then l else l ++ [c] := by
  unfold dropTrailingSlash
  rw [List.getLast?_concat, List.dropLast_concat]
  by_cases hc : c = '/' <;> simp [hc]

theorem dropLeadingSlash_cons (c : Char) (l : List Char) :
    dropLeadingSlash (c :: l) = if c = '/' then l else c :: l := by
  unfold dropLeadingSlash
  by_cases hc : c = '/' <;> simp [hc]

theorem checkAndAppend_data (a b : String) :
    (checkAndAppend a b).data = dropTrailingSlash a.data ++ '/' :: dropLeadingSlash b.data := by
  have e1 : ("/" : String).data = ['/'] := rfl
  obtain ⟨la⟩ := a
  obtain ⟨lb⟩ := b
  show (checkAndAppend ⟨la⟩ ⟨lb⟩).data = dropTrailingSlash la ++ '/' :: dropLeadingSlash lb
  unfold checkAndAppend
  simp only []
  rcases nil_or_snoc la with rfl | ⟨w, x, rfl⟩
  · cases lb with
    | nil => simp [dropTrailingSlash_nil, dropLeadingSlash_nil, String.data_append, e1]
    | cons y ys =>
      by_cases hy : y = '/' <;>
        simp [dropTrailingSlash_nil, dropLeadingSlash_cons, String.data_append, e1, hy]
  · cases lb with
    | nil =>
      by_cases hx : x = '/' <;>
        simp [dropTrailingSlash_snoc, dropLeadingSlash_nil, String.data_append, e1, hx,
          List.getLast?_concat]
    | cons y ys =>
      by_cases hx : x = '/' <;> by_cases hy : y = '/' <;>
        simp [dropTrailingSlash_snoc, dropLeadingSlash_cons, String.data_append, e1, hx, hy,
          List.getLast?_concat]

theorem dropTrailingSlash_append_slash (x w : List Char) :
    dropTrailingSlash (x ++ '/' :: w) =
      if w = [] then x else x ++ '/' :: dropTrailingSlash w := by
  rcases nil_or_snoc w with rfl | ⟨w1, c, rfl⟩
  · simp [dropTrailingSlash_snoc]
  · have e : x ++ '/' :: (w1 ++ [c]) = (x ++ '/' :: w1) ++ [c] := by simp
    rw [e, dropTrailingSlash_snoc, dropTrailingSlash_snoc]
    by_cases hc : c = '/' <;> simp [hc]

theorem dropLeadingSlash_append_slash (w y : List Char) :
    dropLeadingSlash (w ++ '/' :: y) =
      if w = [] then y else dropLeadingSlash w ++ '/' :: y := by
  cases w with
  | nil => simp [dropLeadingSlash_cons]
  | cons c cs =>
    rw [List.cons_append, dropLeadingSlash_cons, dropLeadingSlash_cons]
    by_cases hc : c = '/' <;> simp [hc]

theorem dropLeading_eq_nil_iff (b : List Char) :
    dropLeadingSlash b = [] ↔ dropTrailingSlash b = [] := by
  cases b with
  | nil => simp [dropLeadingSlash_nil, dropTrailingSlash_nil]
  | cons c cs =>
    rcases nil_or_snoc cs with rfl | ⟨w, d, rfl⟩
    · have e : [c] = [] ++ [c] := rfl
      rw [dropLeadingSlash_cons, e, dropTrailingSlash_snoc]
    · rw [dropLeadingSlash_cons, ← List.cons_append, dropTrailingSlash_snoc]
      by_cases hc : c = '/' <;> by_cases hd : d = '/' <;> simp [hc, hd]

theorem dropTrailing_dropLeading (b : List Char) (hb : dropLeadingSlash b ≠ []) :
    dropTrailingSlash (dropLeadingSlash b) = dropLeadingSlash (dropTrailingSlash b) := by
  cases b with
  | nil => exact absurd dropLeadingSlash_nil hb
  | cons c cs =>
    rcases nil_or_snoc cs with rfl | ⟨w, d, rfl⟩
    · have e : [c] = [] ++ [c] := rfl
      rw [dropLeadingSlash_cons] at hb
      by_cases hc : c = '/'
      · simp [hc] at hb
      · rw [dropLeadingSlash_cons, if_neg hc, e, dropTrailingSlash_snoc, if_neg hc, ← e,
          dropLeadingSlash_cons, if_neg hc]
    · rw [dropLeadingSlash_cons, ← List.cons_append, dropTrailingSlash_snoc]
      by_cases hc : c = '/' <;> by_cases hd : d = '/'
      · simp only [hc, hd, if_true, dropTrailingSlash_snoc, dropLeadingSlash_cons]
      · simp only [hc, hd, if_true, if_false, dropTrailingSlash_snoc, List.cons_append,
          dropLeadingSlash_cons]
      · simp only [hc, hd, if_true, if_false, dropLeadingSlash_cons]
        rw [dropTrailingSlash_snoc]
        simp
      · simp only [hc, hd, if_false, List.cons_append, dropLeadingSlash_cons]
        rw [← List.cons_append, dropTrailingSlash_snoc]
        simp [hd]

/-- C16: `checkAndAppend` is associative on all strings, the empty string and the
one-character string `/` included. -/
theorem checkAndAppend_assoc (a b c : String) :
    checkAndAppend (checkAndAppend a b) c = checkAndAppend a (checkAndAppend b c) := by
  apply String.ext
  rw [checkAndAppend_data, checkAndAppend_data, checkAndAppend_data a, checkAndAppend_data b,
    dropTrailingSlash_append_slash, dropLeadingSlash_append_slash]
  by_cases h : dropLeadingSlash b.data = []
  · have h2 := (dropLeading_eq_nil_iff b.data).mp h
    simp [h, h2]
  · have h2 : dropTrailingSlash b.data ≠ [] := fun h3 => h ((dropLeading_eq_nil_iff b.data).mpr h3)
    simp [h, h2, dropTrailing_dropLeading b.data h]

/-! ## URL assembly from three parts -/

/-- C13: for every non-empty `urlTrail`, `appendUrls` joins `baseUrl` with
`apiPath` and the result with `urlTrail`; when `urlTrail` is absent or the empty
string the result is exactly the join of `baseUrl` and `apiPath`. -/
theorem appendUrls_left_to_right (baseUrl apiPath urlTrail : String) (ht : urlTrail ≠ "") :
    appendUrls baseUrl apiPath (some urlTrail)
      = checkAndAppend (checkAndAppend baseUrl apiPath) urlTrail ∧
    appendUrls baseUrl apiPath none = checkAndAppend baseUrl apiPath ∧
    appendUrls baseUrl apiPath (some "") = checkAndAppend baseUrl apiPath := by
  refine ⟨?_, rfl, ?_⟩
  · simp [appendUrls, ht]
  · simp [appendUrls]

/-- C13 at the URL of the tests followed by the trail `1`. -/
theorem appendUrls_left_to_right_witness :
    "1" ≠ "" ∧
    appendUrls "http://sandbox.pod.land/srv/basic-platform/" "/nzh/guildList" (some "1")
      = checkAndAppend
          (checkAndAppend "http://sandbox.pod.land/srv/basic-platform/" "/nzh/guildList") "1" ∧
    appendUrls "http://sandbox.pod.land/srv/basic-platform/" "/nzh/guildList" none
      = checkAndAppend "http://sandbox.pod.land/srv/basic-platform/" "/nzh/guildList" ∧
    appendUrls "http://sandbox.pod.land/srv/basic-platform/" "/nzh/guildList" (some "")
      = checkAndAppend "http://sandbox.pod.land/srv/basic-platform/" "/nzh/guildList" :=
  ⟨by decide,
    appendUrls_left_to_right "http://sandbox.pod.land/srv/basic-platform/" "/nzh/guildList" "1"
      (by decide)⟩

/-! ## Header attachment -/

/-- C14 (the code departs from the claim): `null` passes
`typeof headers === 'object'`, so `addHeaders` sets `options.headers = null` and
the request description does carry a headers field. -/
theorem addHeaders_null_sets_headers (stringify : JSVal → String) :
    addHeaders { url := "http://h/p", method := .str "GET" } .null
      = { url := "http://h/p", method := .str "GET", headers := some .null } ∧
    buildOptions stringify "http://h/" "/p" (.str "GET") .null (.obj [("offset", .str "1")])
      .undefined none
      = .ok { url := "http://h/p", method := .str "GET", headers := some .null,
              params := some (.obj [("offset", .str "1")]), data := none } :=
  ⟨rfl, rfl⟩

/-- Apart from `null`: a structured mapping or an array is attached as it is, a
value of any other type attaches nothing, and `url`, `method`, `params` and
`data` are never touched. -/
theorem addHeaders_frame (options : Options) (headers : JSVal) :
    (addHeaders options headers).url = options.url ∧
    (addHeaders options headers).method = options.method ∧
    (addHeaders options headers).params = options.params ∧
    (addHeaders options headers).data = options.data ∧
    (∀ fields, headers = .obj fields →
      (addHeaders options headers).headers = some (.obj fields)) ∧
    (typeOf headers ≠ "object" → addHeaders options headers = options) := by
  unfold addHeaders
  by_cases h : typeOf headers = "object"
  · rw [if_pos h]
    exact ⟨rfl, rfl, rfl, rfl, fun fields hf => by rw [hf], fun hn => absurd h hn⟩
  · rw [if_neg h]
    exact ⟨rfl, rfl, rfl, rfl, fun fields hf => by rw [hf] at h; exact absurd rfl h,
      fun _ => rfl⟩

/-! ## The error of a failing convention response -/

/-- C15 (the code departs from the claim): a payload with own fields
`errorCode = 21` and `message = "m"` that also carries an own field named
`hasOwnProperty` gets no error object at all: the first call
`podStandardObj.hasOwnProperty('ErrorCode')` throws a `TypeError`. -/
theorem createErrorFromPodReponse_shadowed :
    ownField [("errorCode", JSVal.num 21), ("message", .str "m"),
      ("hasOwnProperty", .bool true)] "errorCode" = some (.num 21) ∧
    createErrorFromPodReponse (.obj [("errorCode", .num 21), ("message", .str "m"),
      ("hasOwnProperty", .bool true)]) = .error .typeError :=
  ⟨rfl, rfl⟩

/-- Apart from that case only the lowercase fields matter: for an object without
an own field named `hasOwnProperty` the error has as code the own `errorCode`
and 888 when there is none, as message the own `message` and
"Unexpected Error Occurred." when there is none, and the object as raw;
`ErrorCode` and `Message` do not occur in the result. -/
theorem createErrorFromPodReponse_obj (fields : List (String × JSVal))
    (hs : ownField fields "hasOwnProperty" = none) :
    createErrorFromPodReponse (.obj fields) = .ok
      ⟨(ownField fields "errorCode").getD (.num 888),
        (ownField fields "message").getD (.str "Unexpected Error Occurred."),
        .obj fields⟩ := by
  cases hC : ownField fields "ErrorCode" <;> cases hM : ownField fields "Message" <;>
    cases hc : ownField fields "errorCode" <;> cases hm : ownField fields "message" <;>
    simp [createErrorFromPodReponse, ownOrElse, callHasOwnProperty_obj _ _ hs, hC, hM, hc,
      hm, getProp, newPodError_obj, errors.unexpected.code, errors.unexpected.message]

/-- On `undefined`, on `null` and on an object with an own field named
`hasOwnProperty` the method throws a `TypeError`. -/
theorem createErrorFromPodReponse_throws (payload : JSVal)
    (hc : hasOwnPropertyCallable payload = false) :
    createErrorFromPodReponse payload = .error .typeError := by
  cases payload with
  | undefined => rfl
  | null => rfl
  | bool b => cases hc
  | num n => cases hc
  | str s => cases hc
  | arr items => cases hc
  | obj fields =>
    cases hs : ownField fields "hasOwnProperty" with
    | some v => simp [createErrorFromPodReponse, ownOrElse, callHasOwnProperty, hs]
    | none => simp [hasOwnPropertyCallable, hs] at hc

/-- A payload that carries only the capitalised fields gets the fixed code and
message. -/
theorem createErrorFromPodReponse_capital_only :
    createErrorFromPodReponse
      (.obj [("HasError", .bool true), ("ErrorCode", .num 21), ("Message", .str "Token invalid")])
    = .ok ⟨.num 888, .str "Unexpected Error Occurred.",
        .obj [("HasError", .bool true), ("ErrorCode", .num 21),
          ("Message", .str "Token invalid")]⟩ := rfl

/-- Every payload on which the `.then` callback calls `createErrorFromPodReponse`
allows the call of `hasOwnProperty`. -/
theorem callable_of_isPodStandard (payload : JSVal) (h : isPodStandard payload = .ok true) :
    hasOwnPropertyCallable payload = true := by
  cases payload with
  | undefined => simp [isPodStandard, typeOf] at h
  | null => simp [isPodStandard, typeOf, callHasOwnProperty] at h
  | bool b => rfl
  | num n => rfl
  | str s => rfl
  | arr items => rfl
  | obj fields =>
    cases hs : ownField fields "hasOwnProperty" with
    | some v => simp [isPodStandard, typeOf, callHasOwnProperty, hs] at h
    | none => simp [hasOwnPropertyCallable, hs]

/-! ## Body placement outside GET -/

theorem eqIgnoreCase_list (la lb : List Char) :
    (la.length == lb.length &&
      (List.zip la lb).all (fun p => p.1.toLower == p.2.toLower)) = true ↔
    la.map Char.toLower = lb.map Char.toLower := by
  induction la generalizing lb with
  | nil => cases lb <;> simp
  | cons x xs ih =>
    cases lb with
    | nil => simp
    | cons y ys =>
      have := ih ys
      simp only [Bool.and_eq_true, beq_iff_eq] at this
      simp only [List.length_cons, List.zip_cons_cons, List.all_cons, List.map_cons,
        Bool.and_eq_true, beq_iff_eq, List.cons.injEq, Nat.add_right_cancel_iff]
      constructor
      · rintro ⟨hl, hx, hall⟩
        exact ⟨hx, this.mp ⟨hl, hall⟩⟩
      · rintro ⟨hx, hm⟩
        obtain ⟨hl, hall⟩ := this.mpr hm
        exact ⟨hl, hx, hall⟩

theorem eqIgnoreCase_iff (a b : String) :
    eqIgnoreCase a b = true ↔ toLowerCase a = toLowerCase b := by
  unfold eqIgnoreCase toLowerCase
  rw [eqIgnoreCase_list]
  constructor
  · intro h; rw [h]
  · intro h; injection h

theorem toLowerCase_ne_get (m : String) (hm : eqIgnoreCase m "get" = false) :
    toLowerCase m ≠ "get" := by
  intro h
  have h2 : eqIgnoreCase m "get" = true := (eqIgnoreCase_iff m "get").mpr (by rw [h]; rfl)
  rw [hm] at h2
  cases h2

theorem isUrlencoded_value (value : String) :
    (toLowerCase value == "application/x-www-form-urlencoded")
      = eqIgnoreCase value formUrlencoded := by
  have e : toLowerCase formUrlencoded = "application/x-www-form-urlencoded" := by decide
  cases h : eqIgnoreCase value formUrlencoded with
  | true =>
    have := (eqIgnoreCase_iff value formUrlencoded).mp h
    rw [this, e]
    decide
  | false =>
    rw [beq_eq_false_iff_ne]
    intro h2
    have h3 : eqIgnoreCase value formUrlencoded = true :=
      (eqIgnoreCase_iff value formUrlencoded).mpr (by rw [h2, e])
    rw [h] at h3
    cases h3

/-- What `isUrlencoded` returns when `hasOwnProperty` can be called on the
headers, and when the headers have another type than `object`. -/
theorem isUrlencoded_eq (headers : JSVal)
    (hc : typeOf headers = "object" → hasOwnPropertyCallable headers = true) :
    isUrlencoded headers = .ok (declaresUrlencoded headers) := by
  cases headers with
  | undefined => rfl
  | null => exact absurd (hc rfl) (by decide)
  | bool b => rfl
  | num n => rfl
  | str s => rfl
  | arr items => rfl
  | obj fields =>
    have hs : ownField fields "hasOwnProperty" = none := by
      have := hc rfl
      simpa [hasOwnPropertyCallable] using this
    cases hct : ownField fields "Content-Type" with
    | none =>
      simp [isUrlencoded, typeOf, callHasOwnProperty_obj _ _ hs, hct, declaresUrlencoded]
    | some v =>
      cases v <;>
        simp [isUrlencoded, typeOf, callHasOwnProperty_obj _ _ hs, hct, declaresUrlencoded,
          getProp, isUrlencoded_value]

/-- What `isUrlencoded` does when `hasOwnProperty` cannot be called on headers of
type `object`. -/
theorem isUrlencoded_throws (headers : JSVal) (ht : typeOf headers = "object")
    (hc : hasOwnPropertyCallable headers = false) :
    isUrlencoded headers = .error .typeError := by
  cases headers with
  | null => rfl
  | obj fields =>
    cases hs : ownField fields "hasOwnProperty" with
    | none => simp [hasOwnPropertyCallable, hs] at hc
    | some v => simp [isUrlencoded, typeOf, callHasOwnProperty, hs]
  | undefined => exact absurd ht (by decide)
  | bool b => cases hc
  | num n => cases hc
  | str s => cases hc
  | arr items => cases hc

/-- What `addBody` does with a string method other than GET and structured
data, when `hasOwnProperty` can be called on the headers. -/
theorem addBody_not_get (stringify : JSVal → String) (options : Options) (m : String)
    (headers isUrlEncoded : JSVal) (fields : List (String × JSVal))
    (hm : eqIgnoreCase m "get" = false)
    (hc : typeOf headers = "object" → hasOwnPropertyCallable headers = true) :
    addBody stringify options (.str m) headers (.obj fields) isUrlEncoded =
      .ok { options with
        data := some (if declaresUrlencoded headers || truthy isUrlEncoded
          then .str (stringify (.obj fields)) else .obj fields) } := by
  have h1 := toLowerCase_ne_get m hm
  simp only [addBody, typeOf, h1, isUrlencoded_eq headers hc, if_true, if_false]
  cases declaresUrlencoded headers <;> cases truthy isUrlEncoded <;> simp

/-- C11 (the code departs from the claim): headers that declare the
form-urlencoded Content-Type and also carry an entry named `hasOwnProperty` make
`headers.hasOwnProperty('Content-Type')` throw; with a method other than GET
`request` throws a `TypeError` before anything is handed to the transport. -/
theorem request_urlencoded_header_shadowed
    (axios : Options → Except TransportError AxiosResponse) (stringify : JSVal → String)
    (isUrlEncoded : JSVal) :
    declaresUrlencoded (.obj [("Content-Type", .str "application/x-www-form-urlencoded"),
      ("hasOwnProperty", .str "1")]) = true ∧
    eqIgnoreCase "POST" "get" = false ∧
    request axios stringify "http://h/" "/p" (.str "POST")
      (.obj [("Content-Type", .str "application/x-www-form-urlencoded"),
        ("hasOwnProperty", .str "1")])
      (.obj [("offset", .str "1"), ("size", .str "300")]) isUrlEncoded none
    = .error .typeError :=
  ⟨rfl, rfl, rfl⟩

/-- Apart from that case the Content-Type decides: with a method other than GET,
structured data and a headers mapping without an entry named `hasOwnProperty`
that declares the form-urlencoded Content-Type, the options handed to the
transport have the encoded data as body and no query parameters, whatever the
flag. -/
theorem buildOptions_urlencoded_header (stringify : JSVal → String) (baseUrl apiPath m : String)
    (isUrlEncoded : JSVal) (headerFields fields : List (String × JSVal))
    (urlTrail : Option String)
    (hm : eqIgnoreCase m "get" = false)
    (hs : ownField headerFields "hasOwnProperty" = none)
    (hd : declaresUrlencoded (.obj headerFields) = true) :
    buildOptions stringify baseUrl apiPath (.str m) (.obj headerFields) (.obj fields)
      isUrlEncoded urlTrail
    = .ok { url := appendUrls baseUrl apiPath urlTrail, method := .str m,
            headers := some (.obj headerFields), params := none,
            data := some (.str (stringify (.obj fields))) } := by
  have hc : typeOf (.obj headerFields) = "object" →
      hasOwnPropertyCallable (.obj headerFields) = true := by
    intro _
    simp [hasOwnPropertyCallable, hs]
  rw [buildOptions, addBody_not_get stringify _ m _ _ fields hm hc, hd]
  rfl

/-- C12 (the code departs from the claim): the headers `null` declare no
Content-Type, yet `typeof null` is `object` and `null.hasOwnProperty` throws; with
a method other than GET `request` throws a `TypeError`, whatever the flag, and no
body is placed. -/
theorem request_null_headers_throws
    (axios : Options → Except TransportError AxiosResponse) (stringify : JSVal → String)
    (isUrlEncoded : JSVal) :
    declaresUrlencoded .null = false ∧
    eqIgnoreCase "POST" "get" = false ∧
    request axios stringify "http://h/" "/p" (.str "POST") .null
      (.obj [("offset", .str "1"), ("size", .str "300")]) isUrlEncoded none
    = .error .typeError :=
  ⟨rfl, rfl, rfl⟩

/-- Apart from the headers on which `hasOwnProperty` cannot be called: with a
method other than GET, structured data and headers that declare no
form-urlencoded Content-Type, the body is the encoded data when the flag is
truthy, the same body as under a declared Content-Type, and the data itself when
it is not; no query parameters are set. -/
theorem buildOptions_flag (stringify : JSVal → String) (baseUrl apiPath m : String)
    (headers isUrlEncoded : JSVal) (fields : List (String × JSVal)) (urlTrail : Option String)
    (hm : eqIgnoreCase m "get" = false)
    (hc : typeOf headers = "object" → hasOwnPropertyCallable headers = true)
    (hd : declaresUrlencoded headers = false) :
    buildOptions stringify baseUrl apiPath (.str m) headers (.obj fields) isUrlEncoded urlTrail
    = .ok { url := appendUrls baseUrl apiPath urlTrail, method := .str m,
            headers := if typeOf headers = "object" then some headers else none,
            params := none,
            data := some (if truthy isUrlEncoded then .str (stringify (.obj fields))
              else .obj fields) } := by
  rw [buildOptions, addBody_not_get stringify _ m _ _ fields hm hc, hd, addHeaders]
  by_cases hh : typeOf headers = "object" <;> simp [hh]

/-- C17 (the code departs from the claim): the data `null` passes
`typeof data === 'object'`, so `addBody` does change the request description: under
GET it sets `params` to `null`, under another method it sets the body to `null`. -/
theorem addBody_null_data (stringify : JSVal → String) :
    addBody stringify { url := "http://h/p", method := .str "GET" } (.str "GET") .undefined
      .null .undefined
      = .ok { url := "http://h/p", method := .str "GET", params := some .null } ∧
    addBody stringify { url := "http://h/p", method := .str "POST" } (.str "POST") .undefined
      .null .undefined
      = .ok { url := "http://h/p", method := .str "POST", data := some .null } :=
  ⟨rfl, rfl⟩

/-- Apart from `null`: when the method is not a string, or the data has another
type than `object`, `addBody` gives the options back unchanged. -/
theorem addBody_unchanged (stringify : JSVal → String) (options : Options)
    (method headers data isUrlEncoded : JSVal)
    (h : typeOf method ≠ "string" ∨ typeOf data ≠ "object") :
    addBody stringify options method headers data isUrlEncoded = .ok options := by
  cases method with
  | str m =>
    rcases h with h | h
    · exact absurd rfl h
    · simp [addBody, h]
  | undefined => rfl
  | null => rfl
  | bool b => rfl
  | num n => rfl
  | arr items => rfl
  | obj fields => rfl

/-- C18 (the code departs from the claim): headers that declare the type under
`content-type` and also carry an entry named `hasOwnProperty` have no own key
`Content-Type`, yet `isUrlencoded` does not return `false`: it throws, and so
does `request` with a method other than GET. -/
theorem isUrlencoded_lowercase_key_shadowed
    (axios : Options → Except TransportError AxiosResponse) (stringify : JSVal → String) :
    ownField [("content-type", JSVal.str "application/x-www-form-urlencoded"),
      ("hasOwnProperty", .str "1")] "Content-Type" = none ∧
    isUrlencoded (.obj [("content-type", .str "application/x-www-form-urlencoded"),
      ("hasOwnProperty", .str "1")]) = .error .typeError ∧
    request axios stringify "http://h/" "/p" (.str "POST")
      (.obj [("content-type", .str "application/x-www-form-urlencoded"),
        ("hasOwnProperty", .str "1")])
      (.obj [("offset", .str "1"), ("size", .str "300")]) .undefined none
    = .error .typeError :=
  ⟨rfl, rfl, rfl⟩

/-- Apart from that case the header name is matched exactly: for a headers
mapping without an entry named `hasOwnProperty` that has no own key
`Content-Type`, or whose `Content-Type` is not a string, `isUrlencoded` returns
`false`, and with a method other than GET and a falsy flag the data is the body,
unmodified. -/
theorem isUrlencoded_exact_key (stringify : JSVal → String) (baseUrl apiPath m : String)
    (isUrlEncoded : JSVal) (headerFields fields : List (String × JSVal))
    (urlTrail : Option String)
    (hs : ownField headerFields "hasOwnProperty" = none)
    (hk : ownField headerFields "Content-Type" = none ∨
      ∃ v, ownField headerFields "Content-Type" = some v ∧ isString v = false)
    (hm : eqIgnoreCase m "get" = false) (hf : truthy isUrlEncoded = false) :
    isUrlencoded (.obj headerFields) = .ok false ∧
    buildOptions stringify baseUrl apiPath (.str m) (.obj headerFields) (.obj fields)
      isUrlEncoded urlTrail
    = .ok { url := appendUrls baseUrl apiPath urlTrail, method := .str m,
            headers := some (.obj headerFields), params := none,
            data := some (.obj fields) } := by
  have hc : typeOf (.obj headerFields) = "object" →
      hasOwnPropertyCallable (.obj headerFields) = true := by
    intro _
    simp [hasOwnPropertyCallable, hs]
  have hd : declaresUrlencoded (.obj headerFields) = false := by
    rcases hk with hk | ⟨v, hk, hv⟩
    · simp [declaresUrlencoded, hk]
    · cases v <;> simp_all [declaresUrlencoded, isString]
  refine ⟨by rw [isUrlencoded_eq _ hc, hd], ?_⟩
  rw [buildOptions_flag stringify baseUrl apiPath m _ isUrlEncoded fields urlTrail hm hc hd, hf]
  rfl

end PodRequest
